import Mathlib

/-!
Shallow embedding of the animated counter component in `src/counter.jsx`.

JavaScript numbers are modelled as exact rationals (`ℚ`); the platform numeric
primitives `parseFloat(x.toFixed(2))`, `Math.round`, `Math.ceil`, `Math.max`,
`Number.prototype.toFixed` and `Number.prototype.toLocaleString("en-US")` are
modelled by their specified exact decimal semantics.

The React state of the component is the record `CState`: the `count` state,
the `isVisible` state, and whether a `setInterval` timer is currently
registered (`intervalActive`).  Environment events (intersection-observer
callbacks and timer ticks) drive a step function.  Effect bodies re-run after
a commit exactly when one of their dependency values changed, as React
prescribes; a `setState` with an unchanged value causes no re-render and hence
no effect re-run, which is behaviourally the same here because the timer
effect guard does not read `count`.
-/

namespace FramerCounter

/-- The `decimalSeparatorType` prop: "comma" | "period" | "none". -/
inductive SepType
  | comma
  | period
  | none
  deriving DecidableEq

/-- The `incrementType` prop: "integer" | "decimal". -/
inductive IncType
  | integer
  | decimal
  deriving DecidableEq

/-- The props of `Counter` that take part in the animation and formatting
logic (presentation-only props such as fonts and colors are omitted).
`«end»` stands for the `end` prop of the source. -/
structure Config where
  start : ℚ
  «end» : ℚ
  duration : ℚ
  startOnViewport : Bool
  restartOnViewport : Bool
  loop : Bool
  decimalSeparatorType : SepType
  incrementType : IncType
  deriving DecidableEq

/-- React state of the component: the `count` and `isVisible` `useState`
cells, plus whether a `setInterval` timer is currently registered. -/
structure CState where
  count : ℚ
  isVisible : Bool
  intervalActive : Bool
  deriving DecidableEq

/-- Environment events: an intersection-observer callback reporting
visibility `b`, or a firing of the registered interval timer. -/
inductive Ev
  | vis (b : Bool)
  | tick
  deriving DecidableEq

/-- `parseFloat(x.toFixed(2))` (line 62): round to two decimal places,
ties away from zero, as `toFixed` specifies (magnitude rounding, then sign). -/
def round2 (x : ℚ) : ℚ :=
  if x < 0 then -((⌊-x * 100 + 1 / 2⌋ : ℚ) / 100)
  else (⌊x * 100 + 1 / 2⌋ : ℚ) / 100

/-- `Math.max(1, Math.ceil(duration / 100))` (line 58). -/
def totalSteps (cfg : Config) : ℤ :=
  max 1 ⌈cfg.duration / 100⌉

/-- `const increment = (end - start) / totalSteps` (line 59). -/
def increment (cfg : Config) : ℚ :=
  (cfg.«end» - cfg.start) / (totalSteps cfg : ℚ)

/-- The interval period `duration / Math.max(1, Math.ceil(duration / 100))`
(line 70), in milliseconds. -/
def tickPeriod (cfg : Config) : ℚ :=
  cfg.duration / (totalSteps cfg : ℚ)

/-- The state update performed by `updateCount` (lines 57-65): the value
`nextCount` of the source is `round2 (prevCount + increment)`, and the returned value is
`nextCount >= end ? end : nextCount`. -/
def updateCount (cfg : Config) (prevCount : ℚ) : ℚ :=
  if round2 (prevCount + increment cfg) ≥ cfg.«end» then cfg.«end»
  else round2 (prevCount + increment cfg)

/-- The guard of the timer effect, line 67:
`isVisible || (!startOnViewport && start !== end)`. -/
def timerCond (cfg : Config) (vis : Bool) : Bool :=
  vis || (!cfg.startOnViewport && decide (cfg.start ≠ cfg.«end»))

/-- One run of the timer effect body (lines 56-78).  If the guard holds, a
`setInterval` timer is registered (the previous one, if any, was cleared by
the cleanup of the previous run, lines 73-75).  Otherwise the source falls
into `else if (startOnViewport && isVisible)` and would reset `count` to
`start`; that branch is kept verbatim here even though its condition can
never hold when reached. -/
def runTimerEffect (cfg : Config) (s : CState) : CState :=
  if timerCond cfg s.isVisible then { s with intervalActive := true }
  else if cfg.startOnViewport && s.isVisible then
    { s with intervalActive := false, count := cfg.start }
  else { s with intervalActive := false }

/-- Processing of an intersection-observer callback `setIsVisible(b)`
(lines 40-43).  After the commit, the timer effect re-runs (its dependency
`isVisible` changed), then the restart effect (lines 90-94) re-runs: if
`restartOnViewport && isVisible` it does `setCount(start)`; the consequent
timer-effect re-run (dependency `count`) clears and re-registers the same
interval, which `runTimerEffect` reproduces. -/
def applyVisibility (cfg : Config) (s : CState) (b : Bool) : CState :=
  let s1 := runTimerEffect cfg { s with isVisible := b }
  if cfg.restartOnViewport && b then runTimerEffect cfg { s1 with count := cfg.start }
  else s1

/-- A firing of the registered interval: `setCount(updateCount)`; the
timer effect then re-runs because its dependency `count` changed (or the
state is unchanged and nothing re-runs, which coincides, since the guard
does not read `count`). -/
def applyTick (cfg : Config) (s : CState) : CState :=
  runTimerEffect cfg { s with count := updateCount cfg s.count }

/-- One environment event.  `setIsVisible` with an unchanged value causes
no re-render and no effect re-run; a tick callback can only fire while an
interval is registered. -/
def step (cfg : Config) (s : CState) : Ev → CState
  | Ev.vis b => if b = s.isVisible then s else applyVisibility cfg s b
  | Ev.tick => if s.intervalActive then applyTick cfg s else s

/-- Mount: `useState(start)`, `useState(false)` (lines 35-36), then the
effects run once; the restart effect does nothing since `isVisible` is
`false`. -/
def init (cfg : Config) : CState :=
  runTimerEffect cfg { count := cfg.start, isVisible := false, intervalActive := false }

/-- The component state after a sequence of environment events, from mount. -/
def run (cfg : Config) (evs : List Ev) : CState :=
  List.foldl (step cfg) (init cfg) evs

/-- The cleanup of the timer effect (lines 73-75): `clearInterval(intervalId)`.
It runs when the owning effect is torn down (unmount, or a dependency value
change); afterwards the interval is no longer registered. -/
def teardown (s : CState) : CState :=
  { s with intervalActive := false }

/-- `Math.round` (line 129): round half toward positive infinity. -/
def jsRound (q : ℚ) : ℤ :=
  ⌊q + 1 / 2⌋

/-- Pad a digit string with leading zeros up to width `f`. -/
def leftPad (f : ℕ) (s : String) : String :=
  String.mk (List.replicate (f - s.length) '0') ++ s

/-- Modelled platform function `Number.prototype.toFixed(f)`: magnitude is
rounded to `f` decimal places, ties away from zero, then the sign and the
decimal point are placed. -/
def toFixed (f : ℕ) (q : ℚ) : String :=
  (if q < 0 then "-" else "") ++
    (Nat.repr ((⌊|q| * 10 ^ f + 1 / 2⌋).toNat / 10 ^ f) ++
      (if f = 0 then "" else
        "." ++ leftPad f (Nat.repr ((⌊|q| * 10 ^ f + 1 / 2⌋).toNat % 10 ^ f))))

/-- Insert a comma after every three characters of a reversed digit list. -/
def group3 : List Char → List Char
  | [] => []
  | [a] => [a]
  | [a, b] => [a, b]
  | [a, b, c] => [a, b, c]
  | a :: b :: c :: rest => a :: b :: c :: ',' :: group3 rest

/-- En-US thousands grouping of a digit string. -/
def groupThousands (s : String) : String :=
  String.mk (group3 s.data.reverse).reverse

/-- Drop trailing `0` characters. -/
def dropTrailingZeros (s : String) : String :=
  String.mk (s.data.reverse.dropWhile (fun c => c = '0')).reverse

/-- Modelled platform function `Number.prototype.toLocaleString("en-US")`
with default options: thousands grouped by commas, at most three fraction
digits (rounded half away from zero), trailing fraction zeros dropped. -/
def toLocaleStringEnUS (q : ℚ) : String :=
  (if q < 0 then "-" else "") ++
    (groupThousands (Nat.repr ((⌊|q| * 1000 + 1 / 2⌋).toNat / 1000)) ++
      (if (⌊|q| * 1000 + 1 / 2⌋).toNat % 1000 = 0 then "" else
        "." ++ dropTrailingZeros (leftPad 3 (Nat.repr ((⌊|q| * 1000 + 1 / 2⌋).toNat % 1000)))))

/-- `.replace(/,/g, ".")` (line 100): every comma becomes a period. -/
def replaceCommas (s : String) : String :=
  String.mk (s.data.map (fun c => if c = ',' then '.' else c))

/-- `formatNumber` (lines 96-104). -/
def formatNumber (sep : SepType) (inc : IncType) (number : ℚ) : String :=
  match sep with
  | SepType.comma => toLocaleStringEnUS number
  | SepType.period => replaceCommas (toLocaleStringEnUS number)
  | SepType.none => toFixed (if inc = IncType.integer then 0 else 1) number

/-- The number span of the render output, line 129:
`formatNumber(Math.round(count))`. -/
def renderedNumber (cfg : Config) (s : CState) : String :=
  formatNumber cfg.decimalSeparatorType cfg.incrementType ((jsRound s.count : ℤ) : ℚ)

/-- Concrete configuration for claim C1: a descending counter. -/
def cfgC1 : Config :=
  { start := 10, «end» := 0, duration := 100, startOnViewport := false,
    restartOnViewport := false, loop := false,
    decimalSeparatorType := SepType.comma, incrementType := IncType.integer }

/-- Concrete configuration for claim C2: increment 1/3 is not exactly
representable with two decimals. -/
def cfgC2 : Config :=
  { start := 0, «end» := 1, duration := 300, startOnViewport := false,
    restartOnViewport := false, loop := false,
    decimalSeparatorType := SepType.comma, incrementType := IncType.integer }

/-- Concrete configuration for claim C3: `start == end`. -/
def cfgC3 : Config :=
  { start := 5, «end» := 5, duration := 100, startOnViewport := true,
    restartOnViewport := false, loop := false,
    decimalSeparatorType := SepType.comma, incrementType := IncType.integer }

/-- Concrete configuration for claim C5: viewport-gated, no replay. -/
def cfgC5 : Config :=
  { start := 0, «end» := 10, duration := 1000, startOnViewport := true,
    restartOnViewport := false, loop := false,
    decimalSeparatorType := SepType.comma, incrementType := IncType.integer }

/-- Concrete configuration for the claim C6 witness. -/
def cfgC6 : Config :=
  { start := 2, «end» := 9, duration := 500, startOnViewport := true,
    restartOnViewport := true, loop := false,
    decimalSeparatorType := SepType.comma, incrementType := IncType.integer }

/-- A hidden state whose run already completed (`count = end`), for the
claim C6 witness. -/
def sC6 : CState :=
  { count := 9, isVisible := false, intervalActive := false }

/-- Concrete configuration for claim C7: one step reaches `end`. -/
def cfgC7 : Config :=
  { start := 0, «end» := 1, duration := 100, startOnViewport := false,
    restartOnViewport := false, loop := false,
    decimalSeparatorType := SepType.comma, incrementType := IncType.integer }

/-- Concrete configuration for the claim C8 witness. -/
def cfgC8 : Config :=
  { start := 0, «end» := 100, duration := 2000, startOnViewport := false,
    restartOnViewport := false, loop := false,
    decimalSeparatorType := SepType.comma, incrementType := IncType.integer }

/-- A mid-animation state for the claim C8 witness. -/
def sC8 : CState :=
  { count := 40, isVisible := true, intervalActive := true }

/-- Concrete configuration for the claim C9 witness. -/
def cfgC9 : Config :=
  { start := 0, «end» := 10, duration := 1000, startOnViewport := false,
    restartOnViewport := false, loop := false,
    decimalSeparatorType := SepType.none, incrementType := IncType.decimal }

/-- A state with a fractional `count` for the claim C9 witness. -/
def sC9 : CState :=
  { count := 3 / 2, isVisible := true, intervalActive := true }

/-! Helper lemmas for evaluating the embedded arithmetic on concrete inputs. -/

theorem floor_add_half (z : ℤ) : ⌊(z : ℚ) + 1 / 2⌋ = z := by
  rw [add_comm, Int.floor_add_int]
  norm_num [Int.floor_eq_zero_iff, Set.mem_Ico]

theorem round2_intCast (n : ℤ) : round2 ((n : ℤ) : ℚ) = n := by
  unfold round2
  by_cases hx : ((n : ℤ) : ℚ) < 0
  · rw [if_pos hx]
    have h : -((n : ℤ) : ℚ) * 100 + 1 / 2 = ((-n * 100 : ℤ) : ℚ) + 1 / 2 := by push_cast; ring
    rw [h, floor_add_half]
    push_cast
    ring
  · rw [if_neg hx]
    have h : ((n : ℤ) : ℚ) * 100 + 1 / 2 = ((n * 100 : ℤ) : ℚ) + 1 / 2 := by push_cast; ring
    rw [h, floor_add_half]
    push_cast
    ring

theorem round2_zero : round2 (0 : ℚ) = 0 := by
  have h := round2_intCast 0
  push_cast at h
  exact h

theorem round2_one : round2 (1 : ℚ) = 1 := by
  have h := round2_intCast 1
  push_cast at h
  exact h

theorem round2_two : round2 (2 : ℚ) = 2 := by
  have h := round2_intCast 2
  push_cast at h
  exact h

theorem round2_neg_ten : round2 (-10 : ℚ) = -10 := by
  have h := round2_intCast (-10)
  push_cast at h
  exact h

theorem round2_third : round2 (1 / 3 : ℚ) = 33 / 100 := by
  unfold round2
  rw [if_neg (by norm_num : ¬ (1 / 3 : ℚ) < 0)]
  rw [show (1 / 3 : ℚ) * 100 + 1 / 2 = 203 / 6 from by norm_num]
  rw [show ⌊(203 / 6 : ℚ)⌋ = 33 from by rw [Int.floor_eq_iff]; norm_num]
  norm_num

theorem abs_round2_sub_le (x : ℚ) : |round2 x - x| ≤ 1 / 200 := by
  unfold round2
  split_ifs with hx
  · have h1 : ((⌊-x * 100 + 1 / 2⌋ : ℤ) : ℚ) ≤ -x * 100 + 1 / 2 := Int.floor_le _
    have h2 : -x * 100 + 1 / 2 - 1 < ((⌊-x * 100 + 1 / 2⌋ : ℤ) : ℚ) := Int.sub_one_lt_floor _
    rw [abs_le]
    constructor <;> linarith
  · have h1 : ((⌊x * 100 + 1 / 2⌋ : ℤ) : ℚ) ≤ x * 100 + 1 / 2 := Int.floor_le _
    have h2 : x * 100 + 1 / 2 - 1 < ((⌊x * 100 + 1 / 2⌋ : ℤ) : ℚ) := Int.sub_one_lt_floor _
    rw [abs_le]
    constructor <;> linarith

/-! Claim theorems. -/

/-- Claim C1 (code bug): the invariant fails on the code.  With start = 10,
end = 0, duration = 100 (one step), the first tick clamps count to end = 0,
but the interval is never cancelled and the second tick takes count to -10,
strictly below min(start, end): the sequence leaves the claimed interval and
does not stop at end. -/
theorem c1_descending_escapes_bounds :
    (run cfgC1 [Ev.tick]).count = cfgC1.«end» ∧
    (run cfgC1 [Ev.tick, Ev.tick]).count = -10 ∧
    (run cfgC1 [Ev.tick, Ev.tick]).count < min cfgC1.start cfgC1.«end» := by
  have hinc : increment cfgC1 = -10 := by norm_num [increment, totalSteps, cfgC1]
  have h1 : cfgC1.start = 10 := rfl
  have h2 : cfgC1.«end» = 0 := rfl
  have h3 : cfgC1.startOnViewport = false := rfl
  have h0 : init cfgC1 = ⟨10, false, true⟩ := by
    norm_num [init, runTimerEffect, timerCond, cfgC1]
  have hA : step cfgC1 ⟨10, false, true⟩ Ev.tick = ⟨0, false, true⟩ := by
    norm_num [step, applyTick, runTimerEffect, timerCond, updateCount, hinc, h1, h2, h3,
      round2_zero]
  have hB : step cfgC1 ⟨0, false, true⟩ Ev.tick = ⟨-10, false, true⟩ := by
    norm_num [step, applyTick, runTimerEffect, timerCond, updateCount, hinc, h1, h2, h3,
      round2_neg_ten]
  refine ⟨?_, ?_, ?_⟩
  · simp only [run, List.foldl_cons, List.foldl_nil, h0, hA, h2]
  · simp only [run, List.foldl_cons, List.foldl_nil, h0, hA, hB]
  · simp only [run, List.foldl_cons, List.foldl_nil, h0, hA, hB, h1, h2]
    norm_num

/-- Claim C2 counterexample: with start = 0, end = 1, duration = 300 the
increment is 1/3, but the first tick advances count by 33/100 (the source
rounds through toFixed(2)), not by exactly (end - start) / totalSteps. -/
theorem c2_counterexample :
    (run cfgC2 [Ev.tick]).count - (init cfgC2).count ≠ increment cfgC2 := by
  have hinc : increment cfgC2 = 1 / 3 := by norm_num [increment, totalSteps, cfgC2]
  have h1 : cfgC2.start = 0 := rfl
  have h2 : cfgC2.«end» = 1 := rfl
  have h3 : cfgC2.startOnViewport = false := rfl
  have h0 : init cfgC2 = ⟨0, false, true⟩ := by
    norm_num [init, runTimerEffect, timerCond, cfgC2]
  have hA : step cfgC2 ⟨0, false, true⟩ Ev.tick = ⟨33 / 100, false, true⟩ := by
    norm_num [step, applyTick, runTimerEffect, timerCond, updateCount, hinc, h1, h2, h3,
      round2_third]
  simp only [run, List.foldl_cons, List.foldl_nil, h0, hA, hinc]
  norm_num

/-- Claim C2 (amended): each tick fires every duration/totalSteps
milliseconds and either clamps count to exactly end, or sets it to the
two-decimal rounding of prev + (end-start)/totalSteps, which is within
1/200 of the exact per-step advance. -/
theorem c2_amended_step (cfg : Config) :
    tickPeriod cfg * ((totalSteps cfg : ℤ) : ℚ) = cfg.duration ∧
    ∀ prevCount : ℚ,
      updateCount cfg prevCount = cfg.«end» ∨
      |updateCount cfg prevCount - (prevCount + increment cfg)| ≤ 1 / 200 := by
  constructor
  · have h1 : (1 : ℤ) ≤ totalSteps cfg := le_max_left _ _
    have h0 : ((totalSteps cfg : ℤ) : ℚ) ≠ 0 := by
      have hne : totalSteps cfg ≠ 0 := by omega
      exact_mod_cast hne
    exact div_mul_cancel₀ _ h0
  · intro prevCount
    by_cases h : round2 (prevCount + increment cfg) ≥ cfg.«end»
    · left
      simp [updateCount, h]
    · right
      have he : updateCount cfg prevCount = round2 (prevCount + increment cfg) := by
        simp [updateCount, h]
      rw [he]
      exact abs_round2_sub_le _

/-- Claim C3 counterexample: with start = end = 5 and the widget visible, a
timer IS created — line 67 tests `isVisible ||` before `start !== end`, so
visibility alone starts the interval even though start equals end. -/
theorem c3_counterexample :
    (run cfgC3 [Ev.vis true]).intervalActive = true := by
  have h0 : init cfgC3 = ⟨5, false, false⟩ := by
    norm_num [init, runTimerEffect, timerCond, cfgC3]
  have hA : step cfgC3 ⟨5, false, false⟩ (Ev.vis true) = ⟨5, true, true⟩ := by
    norm_num [step, applyVisibility, runTimerEffect, timerCond, cfgC3]
  simp only [run, List.foldl_cons, List.foldl_nil, h0, hA]

/-- Claim C3 (amended): with start = end, while the widget never becomes
visible no timer is created and count never changes; visibility can still
create a (value-preserving) timer, as the counterexample shows. -/
theorem c3_amended (cfg : Config) (evs : List Ev) (heq : cfg.start = cfg.«end»)
    (hm : Ev.vis true ∉ evs) :
    run cfg evs = init cfg ∧ (run cfg evs).intervalActive = false ∧
    (run cfg evs).count = cfg.start := by
  have hinit : init cfg = ⟨cfg.start, false, false⟩ := by
    simp [init, runTimerEffect, timerCond, heq]
  have hfix : ∀ e, e ≠ Ev.vis true →
      step cfg ⟨cfg.start, false, false⟩ e = ⟨cfg.start, false, false⟩ := by
    intro e he
    cases e with
    | vis b =>
      cases b with
      | false => simp [step]
      | true => exact absurd rfl he
    | tick => simp [step]
  have hrun : ∀ l : List Ev, Ev.vis true ∉ l →
      List.foldl (step cfg) (⟨cfg.start, false, false⟩ : CState) l =
        (⟨cfg.start, false, false⟩ : CState) := by
    intro l
    induction l with
    | nil => intro _; rfl
    | cons e t ih =>
      intro h
      rw [List.mem_cons, not_or] at h
      rw [List.foldl_cons, hfix e (fun hh => h.1 hh.symm)]
      exact ih h.2
  have hmain : run cfg evs = (⟨cfg.start, false, false⟩ : CState) := by
    unfold run
    rw [hinit]
    exact hrun evs hm
  refine ⟨?_, ?_, ?_⟩
  · rw [hmain, hinit]
  · rw [hmain]
  · rw [hmain]

/-- Witness for the amended claim C3, at start = end = 5 with events that
keep the widget hidden. -/
theorem c3_witness :
    run cfgC3 [Ev.vis false, Ev.tick] = init cfgC3 ∧
    (run cfgC3 [Ev.vis false, Ev.tick]).intervalActive = false ∧
    (run cfgC3 [Ev.vis false, Ev.tick]).count = cfgC3.start :=
  c3_amended cfgC3 [Ev.vis false, Ev.tick] rfl (by decide)

theorem floor_abs_1234 : ⌊|(1234 : ℚ)| * 1000 + 1 / 2⌋ = 1234000 := by
  rw [show |(1234 : ℚ)| * 1000 + 1 / 2 = ((1234000 : ℤ) : ℚ) + 1 / 2 from by
    rw [abs_of_nonneg (by norm_num : (0 : ℚ) ≤ 1234)]
    norm_num]
  exact floor_add_half _

/-- Claim C4: the formatter is a pure function of (value, separator,
increment type); the four specified sample outputs hold, "period" is the
"comma" rendering with every comma replaced by a period, and "none" is
fixed-point with 0 decimals for integer increments and 1 decimal digit
otherwise. -/
theorem c4_formatNumber :
    formatNumber SepType.comma IncType.integer 1234 = "1,234" ∧
    formatNumber SepType.period IncType.integer 1234 = "1.234" ∧
    formatNumber SepType.none IncType.decimal (1234.5 : ℚ) = "1234.5" ∧
    formatNumber SepType.none IncType.integer 1234 = "1234" ∧
    (∀ (q : ℚ) (i : IncType),
      formatNumber SepType.period i q = replaceCommas (formatNumber SepType.comma i q)) ∧
    (∀ q : ℚ, formatNumber SepType.none IncType.integer q = toFixed 0 q) ∧
    (∀ q : ℚ, formatNumber SepType.none IncType.decimal q = toFixed 1 q) := by
  refine ⟨?_, ?_, ?_, ?_, fun q i => rfl, fun q => rfl, fun q => rfl⟩
  · show toLocaleStringEnUS 1234 = "1,234"
    unfold toLocaleStringEnUS
    rw [floor_abs_1234, if_neg (by norm_num : ¬ (1234 : ℚ) < 0)]
    norm_num
    decide
  · show replaceCommas (toLocaleStringEnUS 1234) = "1.234"
    unfold toLocaleStringEnUS
    rw [floor_abs_1234, if_neg (by norm_num : ¬ (1234 : ℚ) < 0)]
    norm_num
    decide
  · show toFixed 1 (1234.5 : ℚ) = "1234.5"
    unfold toFixed
    rw [show |(1234.5 : ℚ)| * 10 ^ (1 : ℕ) + 1 / 2 = ((12345 : ℤ) : ℚ) + 1 / 2 from by
      rw [abs_of_nonneg (by norm_num : (0 : ℚ) ≤ 1234.5)]
      push_cast
      norm_num]
    rw [floor_add_half, if_neg (by norm_num : ¬ (1234.5 : ℚ) < 0)]
    norm_num
    decide
  · show toFixed 0 (1234 : ℚ) = "1234"
    unfold toFixed
    rw [show |(1234 : ℚ)| * 10 ^ (0 : ℕ) + 1 / 2 = ((1234 : ℤ) : ℚ) + 1 / 2 from by
      rw [abs_of_nonneg (by norm_num : (0 : ℚ) ≤ 1234)]
      push_cast
      norm_num]
    rw [floor_add_half, if_neg (by norm_num : ¬ (1234 : ℚ) < 0)]
    norm_num
    decide

/-- Claim C5 (code bug): with startOnViewport = true and restartOnViewport
= false, after the widget becomes visible, ticks once (count 0 to 1), is
hidden and becomes visible again, count is still 1, not the start value 0:
the reset branch of the timer effect (line 77) is unreachable, because line
67 already takes the `isVisible` case, so count is never reset when
visibility is lost and regained. -/
theorem c5_no_reset_on_regained_visibility :
    (run cfgC5 [Ev.vis true, Ev.tick, Ev.vis false, Ev.vis true]).count = 1 ∧
    (run cfgC5 [Ev.vis true, Ev.tick, Ev.vis false, Ev.vis true]).isVisible = true ∧
    cfgC5.start = 0 ∧
    (run cfgC5 [Ev.vis true, Ev.tick, Ev.vis false, Ev.vis true]).count ≠ cfgC5.start := by
  have hinc : increment cfgC5 = 1 := by norm_num [increment, totalSteps, cfgC5]
  have h1 : cfgC5.start = 0 := rfl
  have h2 : cfgC5.«end» = 10 := rfl
  have h3 : cfgC5.startOnViewport = true := rfl
  have h4 : cfgC5.restartOnViewport = false := rfl
  have h0 : init cfgC5 = ⟨0, false, false⟩ := by
    norm_num [init, runTimerEffect, timerCond, cfgC5]
  have hA : step cfgC5 ⟨0, false, false⟩ (Ev.vis true) = ⟨0, true, true⟩ := by
    norm_num [step, applyVisibility, runTimerEffect, timerCond, h3, h4]
  have hB : step cfgC5 ⟨0, true, true⟩ Ev.tick = ⟨1, true, true⟩ := by
    norm_num [step, applyTick, runTimerEffect, timerCond, updateCount, hinc, h1, h2, h3,
      round2_one]
  have hC : step cfgC5 ⟨1, true, true⟩ (Ev.vis false) = ⟨1, false, false⟩ := by
    norm_num [step, applyVisibility, runTimerEffect, timerCond, h3, h4]
  have hD : step cfgC5 ⟨1, false, false⟩ (Ev.vis true) = ⟨1, true, true⟩ := by
    norm_num [step, applyVisibility, runTimerEffect, timerCond, h3, h4]
  simp only [run, List.foldl_cons, List.foldl_nil, h0, hA, hB, hC, hD, h1]
  norm_num

/-- Claim C6: with restartOnViewport = true, every visibility transition
from false to true resets count to start and leaves the interval registered
(the animation restarts from start), whatever the previous count was. -/
theorem c6_restart_on_reentry (cfg : Config) (s : CState)
    (hrov : cfg.restartOnViewport = true) (hvis : s.isVisible = false) :
    (step cfg s (Ev.vis true)).count = cfg.start ∧
    (step cfg s (Ev.vis true)).isVisible = true ∧
    (step cfg s (Ev.vis true)).intervalActive = true := by
  simp [step, applyVisibility, runTimerEffect, timerCond, hrov, hvis]

/-- Witness for claim C6: a hidden, completed state restarts from start on
re-entry. -/
theorem c6_witness :
    (step cfgC6 sC6 (Ev.vis true)).count = cfgC6.start ∧
    (step cfgC6 sC6 (Ev.vis true)).isVisible = true ∧
    (step cfgC6 sC6 (Ev.vis true)).intervalActive = true :=
  c6_restart_on_reentry cfgC6 sC6 rfl rfl

/-- Claim C7 (code bug): the effect guard (line 67) never tests whether
count reached end, so once count equals end the interval remains registered
and ticks keep firing: with start = 0, end = 1, duration = 100, after the
tick that sets count = end the interval is still active, and stays active
after further ticks. -/
theorem c7_interval_persists_after_end :
    (run cfgC7 [Ev.tick]).count = cfgC7.«end» ∧
    (run cfgC7 [Ev.tick]).intervalActive = true ∧
    (run cfgC7 [Ev.tick, Ev.tick]).intervalActive = true := by
  have hinc : increment cfgC7 = 1 := by norm_num [increment, totalSteps, cfgC7]
  have h1 : cfgC7.start = 0 := rfl
  have h2 : cfgC7.«end» = 1 := rfl
  have h3 : cfgC7.startOnViewport = false := rfl
  have h0 : init cfgC7 = ⟨0, false, true⟩ := by
    norm_num [init, runTimerEffect, timerCond, cfgC7]
  have hA : step cfgC7 ⟨0, false, true⟩ Ev.tick = ⟨1, false, true⟩ := by
    norm_num [step, applyTick, runTimerEffect, timerCond, updateCount, hinc, h1, h2, h3,
      round2_one]
  have hB : step cfgC7 ⟨1, false, true⟩ Ev.tick = ⟨1, false, true⟩ := by
    norm_num [step, applyTick, runTimerEffect, timerCond, updateCount, hinc, h1, h2, h3,
      round2_two]
  refine ⟨?_, ?_, ?_⟩
  · simp only [run, List.foldl_cons, List.foldl_nil, h0, hA, h2]
  · simp only [run, List.foldl_cons, List.foldl_nil, h0, hA]
  · simp only [run, List.foldl_cons, List.foldl_nil, h0, hA, hB]

theorem foldl_ticks_inactive (cfg : Config) (t : List Ev) :
    (∀ e ∈ t, e = Ev.tick) → ∀ s : CState, s.intervalActive = false →
      List.foldl (step cfg) s t = s := by
  induction t with
  | nil =>
    intro _ s _
    rfl
  | cons e l ih =>
    intro h s hs
    have he : e = Ev.tick := h e (List.mem_cons_self e l)
    subst he
    rw [List.foldl_cons, show step cfg s Ev.tick = s from by simp [step, hs]]
    exact ih (fun x hx => h x (List.mem_cons_of_mem _ hx)) s hs

/-- Claim C8: the cleanup of the timer effect clears the interval, so after
a teardown the interval is no longer registered and any sequence of stale
tick callbacks leaves the state untouched: no post-teardown state mutation
is observable. -/
theorem c8_teardown_no_stale_updates (cfg : Config) (s : CState) (evs : List Ev)
    (h : ∀ e ∈ evs, e = Ev.tick) :
    (teardown s).intervalActive = false ∧
    List.foldl (step cfg) (teardown s) evs = teardown s :=
  ⟨rfl, foldl_ticks_inactive cfg evs h (teardown s) rfl⟩

/-- Witness for claim C8: teardown mid-animation, then two stale ticks. -/
theorem c8_witness :
    (teardown sC8).intervalActive = false ∧
    List.foldl (step cfgC8) (teardown sC8) [Ev.tick, Ev.tick] = teardown sC8 :=
  c8_teardown_no_stale_updates cfgC8 sC8 [Ev.tick, Ev.tick] (by decide)

theorem toFixed_one_int (n : ℤ) :
    toFixed 1 ((n : ℤ) : ℚ) =
      (if ((n : ℤ) : ℚ) < 0 then "-" else "") ++ (Nat.repr n.natAbs ++ ".0") := by
  have habs : |((n : ℤ) : ℚ)| * 10 ^ (1 : ℕ) + 1 / 2 = ((10 * n.natAbs : ℕ) : ℚ) + 1 / 2 := by
    rw [← Int.cast_abs, ← Int.cast_natAbs]
    push_cast [← Int.cast_natAbs]
    ring
  have hfl : ⌊|((n : ℤ) : ℚ)| * 10 ^ (1 : ℕ) + 1 / 2⌋ = ((10 * n.natAbs : ℕ) : ℤ) := by
    rw [habs, ← Int.cast_natCast (R := ℚ) (10 * n.natAbs)]
    exact floor_add_half _
  unfold toFixed
  rw [hfl, Int.toNat_natCast]
  rw [show (10 * n.natAbs) / 10 ^ (1 : ℕ) = n.natAbs from by
    norm_num [Nat.mul_div_cancel_left]]
  rw [show (10 * n.natAbs) % 10 ^ (1 : ℕ) = 0 from by
    norm_num [Nat.mul_mod_right]]
  rw [show (if (1 : ℕ) = 0 then "" else "." ++ leftPad 1 (Nat.repr 0)) = ".0" from by decide]

/-- Claim C9: the rendered number span is formatNumber(Math.round(count)),
so with decimalSeparatorType = "none" and incrementType = "decimal" the
displayed string is the whole number Math.round(count) followed by ".0":
it never shows a nonzero fractional digit. -/
theorem c9_rounded_render (cfg : Config) (s : CState)
    (hsep : cfg.decimalSeparatorType = SepType.none)
    (hinc : cfg.incrementType = IncType.decimal) :
    renderedNumber cfg s =
      (if ((jsRound s.count : ℤ) : ℚ) < 0 then "-" else "") ++
        (Nat.repr (jsRound s.count).natAbs ++ ".0") := by
  unfold renderedNumber
  rw [hsep, hinc]
  exact toFixed_one_int (jsRound s.count)

/-- Witness for claim C9: a fractional count renders as a whole number
followed by ".0". -/
theorem c9_witness :
    renderedNumber cfgC9 sC9 =
      (if ((jsRound sC9.count : ℤ) : ℚ) < 0 then "-" else "") ++
        (Nat.repr (jsRound sC9.count).natAbs ++ ".0") :=
  c9_rounded_render cfgC9 sC9 rfl rfl

/-- Claim C10: the loop prop has no influence: for any two values of loop
and otherwise identical props and event sequence, the whole state trace and
the rendered number are identical (loop occurs only in the effect dependency
list and the property panel, never in a computation). -/
theorem c10_loop_no_influence (cfg : Config) (b₁ b₂ : Bool) (evs : List Ev) :
    run { cfg with loop := b₁ } evs = run { cfg with loop := b₂ } evs ∧
    renderedNumber { cfg with loop := b₁ } (run { cfg with loop := b₁ } evs) =
      renderedNumber { cfg with loop := b₂ } (run { cfg with loop := b₂ } evs) := by
  have hstep : step { cfg with loop := b₁ } = step { cfg with loop := b₂ } := by
    funext s e
    cases e <;> rfl
  have hrun : run { cfg with loop := b₁ } evs = run { cfg with loop := b₂ } evs := by
    unfold run
    rw [hstep, show init { cfg with loop := b₁ } = init { cfg with loop := b₂ } from rfl]
  refine ⟨hrun, ?_⟩
  rw [hrun]
  exact rfl

end FramerCounter
